import Mathlib

/-!
Shallow embedding of `scripts/gpu_specs.py`, a cross-platform GPU
specification detection script, together with proofs about its behaviour.

Modelling conventions:
* Python strings are Lean `String`s; the string operations the script uses
  (`in`, `split`, `strip`, `replace`, `.title()`, `int(...)`, `float(...)`)
  are re-implemented below on `List Char` by structural recursion so that
  every definition is kernel-computable.
* Python `Optional[T]` becomes `Option T`; Python truthiness tests
  (`if specs.compute_units:`) are modelled exactly, so `Some 0`, `Some ""`
  and an empty dict are falsy.
* Python dicts (insertion ordered) become association lists, looked up with
  `List.lookup`.
* Python floats are modelled as rationals (`ℚ`); true division `/` is
  rational division.
* The external world (pynvml, rocm-smi, system_profiler, torch) is modelled
  by explicit environment structures holding the values those calls return;
  a gatherer is then a pure function of its environment.
-/

/-! ### Python-style string primitives -/

/-- Does the list start with the given needle? (all-or-nothing prefix test) -/
def takesPref : List Char → List Char → Bool
  | [], _ => true
  | _ :: _, [] => false
  | a :: as, b :: bs => a == b && takesPref as bs

/-- Python `needle in hay` substring test, on character lists. -/
def containsSub (needle : List Char) : List Char → Bool
  | [] => takesPref needle []
  | c :: cs => takesPref needle (c :: cs) || containsSub needle cs

/-- Python `needle in hay` substring test, on strings. -/
def strContains (hay needle : String) : Bool :=
  containsSub needle.data hay.data

/-- Split a character list on a separator character (Python `s.split(sep)`
for a one-character separator: empty segments are kept). -/
def splitOnChar (sep : Char) : List Char → List (List Char)
  | [] => [[]]
  | c :: cs =>
    if c == sep then [] :: splitOnChar sep cs
    else
      match splitOnChar sep cs with
      | [] => [[c]]
      | s :: ss => (c :: s) :: ss

/-- Split a string on the newline character, as Python `s.split("\n")`. -/
def splitLines (s : String) : List String :=
  (splitOnChar (Char.ofNat 10) s.data).map fun l => String.mk l

/-- Suffix of the list after the first occurrence of `sep`, when `sep`
occurs as a substring. -/
def afterFirst (sep : List Char) : List Char → Option (List Char)
  | [] => if sep.isEmpty then some [] else none
  | c :: cs =>
    if takesPref sep (c :: cs) then some ((c :: cs).drop sep.length)
    else afterFirst sep cs

/-- Prefix of the list before the first occurrence of `sep` (the whole list
when `sep` does not occur). -/
def upToFirst (sep : List Char) : List Char → List Char
  | [] => []
  | c :: cs =>
    if takesPref sep (c :: cs) then []
    else c :: upToFirst sep cs

/-- Python `line.split(sep)[1]` for a line known to contain `sep`: the text
between the first occurrence of `sep` and the following occurrence (or the
end).  Returns `""` when `sep` does not occur. -/
def afterMarker (line sep : String) : String :=
  String.mk (upToFirst sep.data ((afterFirst sep.data line.data).getD []))

/-- Python `s.strip()`: remove leading and trailing whitespace. -/
def pyStrip (s : String) : String :=
  String.mk (((s.data.dropWhile Char.isWhitespace).reverse.dropWhile
    Char.isWhitespace).reverse)

/-- Helper for `pySplitWs`, carrying the (reversed) current word. -/
def pySplitWsAux : List Char → List Char → List (List Char)
  | [], acc => if acc.isEmpty then [] else [acc.reverse]
  | c :: cs, acc =>
    if c.isWhitespace then
      if acc.isEmpty then pySplitWsAux cs []
      else acc.reverse :: pySplitWsAux cs []
    else pySplitWsAux cs (c :: acc)

/-- Python `s.split()` with no argument: split on whitespace runs, dropping
empty pieces. -/
def pySplitWs (s : String) : List String :=
  (pySplitWsAux s.data []).map fun l => String.mk l

/-- Python `s.replace(a, b)` for one-character `a` and `b`. -/
def pyReplaceChar (a b : Char) (s : String) : String :=
  String.mk (s.data.map fun c => if c == a then b else c)

/-- Python `s.title()` restricted to ASCII letters: the first letter after a
non-letter is uppercased, subsequent letters are lowercased. -/
def pyTitleAux : Bool → List Char → List Char
  | _, [] => []
  | prevAlpha, c :: cs =>
    if c.isAlpha then
      (if prevAlpha then c.toLower else c.toUpper) :: pyTitleAux true cs
    else c :: pyTitleAux false cs

/-- Python `s.title()` (ASCII letters only). -/
def pyTitle (s : String) : String :=
  String.mk (pyTitleAux false s.data)

/-- Decimal digit run with Python's underscore rule (an underscore must sit
between two digits), accumulating the value. -/
def pyDigitsAux : List Char → Nat → Option Nat
  | [], acc => some acc
  | c :: cs, acc =>
    if c.isDigit then pyDigitsAux cs (acc * 10 + (c.toNat - 48))
    else
      if c == '_' then
        match cs with
        | d :: ds =>
          if d.isDigit then pyDigitsAux ds (acc * 10 + (d.toNat - 48))
          else none
        | [] => none
      else none

/-- Nonempty decimal digit run (with underscores) as a natural number. -/
def pyDigits : List Char → Option Nat
  | [] => none
  | c :: cs => if c.isDigit then pyDigitsAux cs (c.toNat - 48) else none

/-- Python `int(token)` on a whitespace-free token: optional sign followed
by decimal digits (underscores allowed between digits); anything else is a
`ValueError`, modelled as `none`. -/
def pyInt (s : String) : Option Int :=
  match s.data with
  | '+' :: rest => (pyDigits rest).map fun n => (n : Int)
  | '-' :: rest => (pyDigits rest).map fun n => -(n : Int)
  | cs => (pyDigits cs).map fun n => (n : Int)

/-- Plain digit-run value (no underscores), for `pyFloat`. -/
def digitsVal (cs : List Char) : Nat :=
  cs.foldl (fun a c => a * 10 + (c.toNat - 48)) 0

/-- Python `float(token)` on a whitespace-free token, for the decimal forms
the script can meet: optional sign, then digits, `digits.digits`, `digits.`
or `.digits`; anything else is a `ValueError`, modelled as `none`. -/
def pyFloatCore (cs : List Char) : Option ℚ :=
  let ip := cs.takeWhile Char.isDigit
  let rest := cs.dropWhile Char.isDigit
  match rest with
  | [] => if ip.isEmpty then none else some (digitsVal ip : ℚ)
  | '.' :: frac =>
    if frac.all Char.isDigit && !(ip.isEmpty && frac.isEmpty) then
      some ((digitsVal ip : ℚ) + (digitsVal frac : ℚ) / ((10 : ℚ) ^ frac.length))
    else none
  | _ => none

/-- Python `float(token)` including an optional leading sign. -/
def pyFloat (s : String) : Option ℚ :=
  match s.data with
  | '+' :: rest => pyFloatCore rest
  | '-' :: rest => (pyFloatCore rest).map fun q => -q
  | cs => pyFloatCore cs

/-- Format an integer with thousands separators, reversed-digit helper:
`k` counts digits already emitted. -/
def commaAux : Nat → List Char → List Char
  | _, [] => []
  | k, c :: cs =>
    if k ≠ 0 && k % 3 == 0 then ',' :: c :: commaAux (k + 1) cs
    else c :: commaAux (k + 1) cs

/-- Python `f"{n:,}"`: decimal with a comma every three digits. -/
def fmtComma (n : Int) : String :=
  let body := String.mk ((commaAux 0 (toString n.natAbs).data.reverse).reverse)
  if n < 0 then "-" ++ body else body

/-- Round a rational to the nearest integer, ties to even (the rounding
Python's fixed-point float formatting applies). -/
def roundHalfEven (q : ℚ) : ℤ :=
  let fl := Rat.floor q
  let fr := q - (fl : ℚ)
  if fr < 1 / 2 then fl
  else if 1 / 2 < fr then fl + 1
  else if fl % 2 == 0 then fl else fl + 1

/-- Python `f"{q:.1f}"` modelled on rationals: one decimal digit, ties to
even. -/
def fmtRat1 (q : ℚ) : String :=
  let n := roundHalfEven (q * 10)
  let sign := if n < 0 then "-" else ""
  sign ++ toString (n.natAbs / 10) ++ "." ++ toString (n.natAbs % 10)

/-! ### The GPU specification record (`@dataclass GPUSpecs`) -/

/-- Values stored in the `additional_info` dict. -/
inductive PyVal where
  | pstr (s : String)
  | pint (n : Int)
  | pbool (b : Bool)
  | pnone
deriving DecidableEq, Repr

/-- Python `str(v)` on an `additional_info` value. -/
def pyValStr : PyVal → String
  | PyVal.pstr s => s
  | PyVal.pint n => toString n
  | PyVal.pbool b => if b then "True" else "False"
  | PyVal.pnone => "None"

/-- Python truthiness of an `additional_info` value. -/
def pyValTruthy : PyVal → Bool
  | PyVal.pstr s => s ≠ ""
  | PyVal.pint n => n ≠ 0
  | PyVal.pbool b => b
  | PyVal.pnone => false

/-- The unified GPU specification dataclass of the script. -/
structure GPUSpecs where
  vendor : String
  device_name : String
  architecture : String
  compute_capability : Option String := none
  compute_units : Option Int := none
  registers_per_unit : Option Int := none
  shared_memory_per_unit_kb : Option Int := none
  max_threads_per_unit : Option Int := none
  max_blocks_per_unit : Option Int := none
  total_memory_gb : Option ℚ := none
  additional_info : Option (List (String × PyVal)) := none
deriving DecidableEq, Repr

/-! ### NVIDIA gatherer (`get_nvidia_specs`) -/

/-- The `arch_map` table of `get_nvidia_specs`, keyed by the compute
capability string. -/
def nvidia_arch_map : List (String × String) :=
  [("5.0", "Maxwell"), ("5.2", "Maxwell"), ("5.3", "Maxwell"),
   ("6.0", "Pascal"), ("6.1", "Pascal"), ("6.2", "Pascal"),
   ("7.0", "Volta"), ("7.2", "Volta"),
   ("7.5", "Turing"),
   ("8.0", "Ampere"), ("8.6", "Ampere"), ("8.7", "Ampere"),
   ("8.9", "Ada"),
   ("9.0", "Hopper")]

/-- The expression `arch_map.get(cap_str, f"Compute \x7bcap_str\x7d")`. -/
def nvidiaArchitecture (cap_str : String) : String :=
  (List.lookup cap_str nvidia_arch_map).getD ("Compute " ++ cap_str)

/-- The expression `max_blocks = 32 if cap[0] >= 6 else 16`. -/
def nvidiaMaxBlocks (major : Nat) : Nat :=
  if 6 ≤ major then 32 else 16

/-- The architectural shared-memory-per-unit table (KB), keyed on the
capability pair. -/
def nvidiaArchSharedMem (major minor : Nat) : Nat :=
  if 9 ≤ major then 228
  else if major = 8 then (if minor = 9 then 128 else 164)
  else if major = 7 then (if 5 ≤ minor then 96 else 80)
  else if major = 6 then 96
  else 64

/-- The capability string `f"\x7bcap[0]\x7d.\x7bcap[1]\x7d"`. -/
def capString (major minor : Nat) : String :=
  toString major ++ "." ++ toString minor

/-- Values the NVIDIA management binding and torch return on the success
path of `get_nvidia_specs`. -/
structure NvidiaEnv where
  name : String
  capMajor : Nat
  capMinor : Nat
  memTotalBytes : Nat
  torchCudaAvailable : Bool
  sharedMemPerMPBytes : Nat
  smCount : Int
  regsPerSM : Int
  maxThreadsPerSM : Int

/-- The gatherer `get_nvidia_specs` on its success path, as a pure function
of the environment. -/
def get_nvidia_specs (env : NvidiaEnv) : GPUSpecs :=
  let cap_str := capString env.capMajor env.capMinor
  { vendor := "NVIDIA"
    device_name := env.name
    architecture := nvidiaArchitecture cap_str
    compute_capability := some cap_str
    compute_units :=
      if env.torchCudaAvailable then some env.smCount else none
    registers_per_unit :=
      if env.torchCudaAvailable then some env.regsPerSM else none
    shared_memory_per_unit_kb :=
      some (nvidiaArchSharedMem env.capMajor env.capMinor : Int)
    max_threads_per_unit :=
      if env.torchCudaAvailable then some env.maxThreadsPerSM else none
    max_blocks_per_unit := some (nvidiaMaxBlocks env.capMajor : Int)
    total_memory_gb := some ((env.memTotalBytes : ℚ) / (1024 ^ 3 : ℚ))
    additional_info := some
      [("pytorch_shared_mem_kb",
        if env.torchCudaAvailable then
          PyVal.pint ((env.sharedMemPerMPBytes / 1024 : Nat) : Int)
        else PyVal.pnone),
       ("unit_type", PyVal.pstr "Streaming Multiprocessor (SM)")] }

/-! ### Theorems for claims C1, C2, C3 -/

/-- C1: every compute-capability string in the NVIDIA lookup table maps to
its documented generation name, and every string absent from the table maps
to `"Compute "` followed by the capability string. -/
theorem nvidia_architecture_table :
    (nvidiaArchitecture "5.0" = "Maxwell" ∧ nvidiaArchitecture "5.2" = "Maxwell" ∧
     nvidiaArchitecture "5.3" = "Maxwell" ∧ nvidiaArchitecture "6.0" = "Pascal" ∧
     nvidiaArchitecture "6.1" = "Pascal" ∧ nvidiaArchitecture "6.2" = "Pascal" ∧
     nvidiaArchitecture "7.0" = "Volta" ∧ nvidiaArchitecture "7.2" = "Volta" ∧
     nvidiaArchitecture "7.5" = "Turing" ∧ nvidiaArchitecture "8.0" = "Ampere" ∧
     nvidiaArchitecture "8.6" = "Ampere" ∧ nvidiaArchitecture "8.7" = "Ampere" ∧
     nvidiaArchitecture "8.9" = "Ada" ∧ nvidiaArchitecture "9.0" = "Hopper") ∧
    ∀ s : String, List.lookup s nvidia_arch_map = none →
      nvidiaArchitecture s = "Compute " ++ s := by
  constructor
  · exact ⟨rfl, rfl, rfl, rfl, rfl, rfl, rfl, rfl, rfl, rfl, rfl, rfl, rfl, rfl⟩
  · intro s h
    unfold nvidiaArchitecture
    rw [h]
    rfl

/-- Witness for C1: a capability absent from the table gets the fallback
label. -/
theorem nvidia_architecture_table_witness :
    nvidiaArchitecture "3.7" = "Compute " ++ "3.7" :=
  nvidia_architecture_table.2 "3.7" (by decide)

/-- C2: the architectural shared-memory value the NVIDIA gatherer stores is
exactly `nvidiaArchSharedMem` of the capability pair, which follows the
documented piecewise rule, including all seven listed sample points. -/
theorem nvidia_arch_shared_mem_spec :
    (∀ env : NvidiaEnv,
      (get_nvidia_specs env).shared_memory_per_unit_kb =
        some (nvidiaArchSharedMem env.capMajor env.capMinor : Int)) ∧
    (∀ M m : Nat,
      (9 ≤ M → nvidiaArchSharedMem M m = 228) ∧
      (M = 8 → m = 9 → nvidiaArchSharedMem M m = 128) ∧
      (M = 8 → m ≠ 9 → nvidiaArchSharedMem M m = 164) ∧
      (M = 7 → 5 ≤ m → nvidiaArchSharedMem M m = 96) ∧
      (M = 7 → m < 5 → nvidiaArchSharedMem M m = 80) ∧
      (M = 6 → nvidiaArchSharedMem M m = 96) ∧
      (M < 6 → nvidiaArchSharedMem M m = 64)) ∧
    (nvidiaArchSharedMem 9 0 = 228 ∧ nvidiaArchSharedMem 8 9 = 128 ∧
     nvidiaArchSharedMem 8 0 = 164 ∧ nvidiaArchSharedMem 7 5 = 96 ∧
     nvidiaArchSharedMem 7 0 = 80 ∧ nvidiaArchSharedMem 6 1 = 96 ∧
     nvidiaArchSharedMem 5 0 = 64) := by
  refine ⟨fun env => rfl, fun M m => ?_, by decide⟩
  refine ⟨fun h => ?_, fun h1 h2 => ?_, fun h1 h2 => ?_, fun h1 h2 => ?_,
    fun h1 h2 => ?_, fun h => ?_, fun h => ?_⟩
  · unfold nvidiaArchSharedMem; rw [if_pos h]
  · subst h1; subst h2; rfl
  · subst h1
    unfold nvidiaArchSharedMem
    rw [if_neg (by omega), if_pos rfl, if_neg h2]
  · subst h1
    unfold nvidiaArchSharedMem
    rw [if_neg (by omega), if_neg (by omega), if_pos rfl, if_pos h2]
  · subst h1
    unfold nvidiaArchSharedMem
    rw [if_neg (by omega), if_neg (by omega), if_pos rfl, if_neg (by omega)]
  · subst h; rfl
  · unfold nvidiaArchSharedMem
    rw [if_neg (by omega), if_neg (by omega), if_neg (by omega),
        if_neg (by omega)]

/-- Witness for C2: the piecewise rule applied at concrete capability
pairs. -/
theorem nvidia_arch_shared_mem_spec_witness :
    nvidiaArchSharedMem 9 1 = 228 ∧ nvidiaArchSharedMem 8 6 = 164 ∧
    nvidiaArchSharedMem 5 2 = 64 :=
  ⟨(nvidia_arch_shared_mem_spec.2.1 9 1).1 (by decide),
   (nvidia_arch_shared_mem_spec.2.1 8 6).2.2.1 rfl (by decide),
   (nvidia_arch_shared_mem_spec.2.1 5 2).2.2.2.2.2.2 (by decide)⟩

/-- C3: the `max_blocks_per_unit` the NVIDIA gatherer stores is 32 when the
capability major version is at least 6 and 16 otherwise. -/
theorem nvidia_max_blocks_spec :
    (∀ env : NvidiaEnv,
      (get_nvidia_specs env).max_blocks_per_unit =
        some (nvidiaMaxBlocks env.capMajor : Int)) ∧
    (∀ major : Nat,
      (6 ≤ major → nvidiaMaxBlocks major = 32) ∧
      (major < 6 → nvidiaMaxBlocks major = 16)) := by
  refine ⟨fun env => rfl, fun major => ⟨fun h => ?_, fun h => ?_⟩⟩
  · unfold nvidiaMaxBlocks; rw [if_pos h]
  · unfold nvidiaMaxBlocks; rw [if_neg (by omega)]

/-- Witness for C3: concrete major versions on both sides of the
boundary. -/
theorem nvidia_max_blocks_spec_witness :
    nvidiaMaxBlocks 6 = 32 ∧ nvidiaMaxBlocks 5 = 16 :=
  ⟨(nvidia_max_blocks_spec.2 6).1 (by decide),
   (nvidia_max_blocks_spec.2 5).2 (by decide)⟩

/-! ### Formatter (`print_gpu_specs`) -/

/-- The label prefix for the compute-unit line:
`specs.additional_info.get("unit_type", "Compute Units")` guarded by the
truthiness of `specs.additional_info`. -/
def unitTypeLabel (s : GPUSpecs) : String :=
  match s.additional_info with
  | some d =>
    if d.isEmpty then "Compute Units"
    else pyValStr ((List.lookup "unit_type" d).getD (PyVal.pstr "Compute Units"))
  | none => "Compute Units"

/-- Line printed when `specs.compute_capability` is truthy. -/
def capLines (s : GPUSpecs) : List String :=
  match s.compute_capability with
  | some c => if c = "" then [] else ["Compute Capability: " ++ c]
  | none => []

/-- Line printed when `specs.compute_units` is truthy. -/
def cuLines (s : GPUSpecs) : List String :=
  match s.compute_units with
  | some n => if n = 0 then [] else [unitTypeLabel s ++ ": " ++ toString n]
  | none => []

/-- Line printed when `specs.registers_per_unit` is truthy. -/
def regLines (s : GPUSpecs) : List String :=
  match s.registers_per_unit with
  | some n => if n = 0 then [] else ["Registers per Unit: " ++ fmtComma n]
  | none => []

/-- Line printed when `specs.shared_memory_per_unit_kb` is truthy. -/
def shmLines (s : GPUSpecs) : List String :=
  match s.shared_memory_per_unit_kb with
  | some n =>
    if n = 0 then []
    else ["Shared Memory per Unit: " ++ toString n ++ "KB (architectural max)"]
  | none => []

/-- Line printed when `additional_info` is truthy, owns a
`pytorch_shared_mem_kb` entry and that entry's value is truthy. -/
def ptShmLines (s : GPUSpecs) : List String :=
  match s.additional_info with
  | some d =>
    if d.isEmpty then []
    else
      match List.lookup "pytorch_shared_mem_kb" d with
      | some v =>
        if pyValTruthy v then
          ["Shared Memory per Unit: " ++ pyValStr v ++ "KB (operational limit)"]
        else []
      | none => []
  | none => []

/-- Line printed when `specs.max_threads_per_unit` is truthy. -/
def thrLines (s : GPUSpecs) : List String :=
  match s.max_threads_per_unit with
  | some n => if n = 0 then [] else ["Max Threads per Unit: " ++ fmtComma n]
  | none => []

/-- Line printed when `specs.max_blocks_per_unit` is truthy. -/
def blkLines (s : GPUSpecs) : List String :=
  match s.max_blocks_per_unit with
  | some n => if n = 0 then [] else ["Max Blocks per Unit: " ++ toString n]
  | none => []

/-- Line printed when `specs.total_memory_gb` is truthy. -/
def memLines (s : GPUSpecs) : List String :=
  match s.total_memory_gb with
  | some q => if q = 0 then [] else ["Total Memory: " ++ fmtRat1 q ++ "GB"]
  | none => []

/-- The trailing loop over `additional_info`: every entry other than
`pytorch_shared_mem_kb` and `unit_type` is printed title-cased; boolean
`True` prints as `Yes`, boolean `False` is suppressed. -/
def addLines (s : GPUSpecs) : List String :=
  match s.additional_info with
  | some d =>
    d.filterMap fun kv =>
      if kv.1 = "pytorch_shared_mem_kb" ∨ kv.1 = "unit_type" then none
      else
        match kv.2 with
        | PyVal.pbool b =>
          if b then some (pyTitle (pyReplaceChar '_' ' ' kv.1) ++ ": Yes")
          else none
        | v => some (pyTitle (pyReplaceChar '_' ' ' kv.1) ++ ": " ++ pyValStr v)
  | none => []

/-- The formatter `print_gpu_specs`, as the ordered list of lines it
prints. -/
def print_gpu_specs (s : GPUSpecs) : List String :=
  ["Device: " ++ s.device_name,
   "Vendor: " ++ s.vendor,
   "Architecture: " ++ s.architecture]
  ++ capLines s ++ cuLines s ++ regLines s ++ shmLines s ++ ptShmLines s
  ++ thrLines s ++ blkLines s ++ memLines s ++ addLines s

/-! ### AMD gatherer (`get_amd_specs`) -/

/-- The AMD memory-scan line filter: `"Total" in line and "MB" in line`. -/
def amdMemLineMatch (line : String) : Bool :=
  strContains line "Total" && strContains line "MB"

/-- The expression `int(line.split()[-2])`, with `ValueError` and
`IndexError` both modelled as `none`. -/
def amdLineTok (line : String) : Option Int :=
  let toks := pySplitWs line
  if toks.length < 2 then none
  else pyInt (toks.getD (toks.length - 2) "")

/-- The `for line in lines` scan of `get_amd_specs`: the first line
containing both `"Total"` and `"MB"` whose second-to-last token parses as an
integer sets the total (megabytes divided by 1024); parse failures fall
through to later lines; no match leaves the total unset. -/
def amdMemLoop : List String → Option ℚ
  | [] => none
  | l :: ls =>
    if amdMemLineMatch l then
      match amdLineTok l with
      | some v => some ((v : ℚ) / 1024)
      | none => amdMemLoop ls
    else amdMemLoop ls

/-- The AMD architecture heuristic: default `"RDNA"`, reassigned by the
first matching branch of the `if`/`elif` chain over the device name. -/
def amdArchitecture (device_name : String) : String :=
  if strContains device_name "RX 7" || strContains device_name "RX 6" then
    "RDNA 2/3"
  else if strContains device_name "RX 5" then "RDNA"
  else if strContains device_name "Vega" then "GCN 5.0 (Vega)"
  else if strContains device_name "Polaris" || strContains device_name "RX 4"
      || strContains device_name "RX 5" then "GCN 4.0 (Polaris)"
  else "RDNA"

/-- Values the rocm-smi invocations and torch return on the success path of
`get_amd_specs` (the first rocm-smi call has already exited 0, else the
gather raises). -/
structure AmdEnv where
  productStdout : String
  memReturncodeZero : Bool
  memStdout : String
  torchHasHipAttr : Bool
  torchCudaAvailable : Bool
  multiProcessorCount : Int

/-- The expression
`result.stdout.strip().split("\n")[-1].strip()` for the device name. -/
def amdDeviceName (stdout : String) : String :=
  pyStrip ((splitLines (pyStrip stdout)).getLastD "")

/-- The gatherer `get_amd_specs` on its success path, as a pure function of
the environment. -/
def get_amd_specs (env : AmdEnv) : GPUSpecs :=
  let device_name := amdDeviceName env.productStdout
  { vendor := "AMD"
    device_name := device_name
    architecture := amdArchitecture device_name
    compute_units :=
      if env.torchHasHipAttr && env.torchCudaAvailable then
        some env.multiProcessorCount
      else none
    total_memory_gb :=
      if env.memReturncodeZero then
        amdMemLoop (splitLines (pyStrip env.memStdout))
      else none
    additional_info := some
      [("unit_type", PyVal.pstr "Compute Unit (CU)"),
       ("note", PyVal.pstr
         "Detailed architectural specs require ROCm profiling tools")] }

/-! ### Apple Silicon gatherer (`get_apple_silicon_specs`) -/

/-- One step of the `system_profiler` line scan: a stripped line containing
`"Chip:"` replaces the chip name; otherwise a stripped line containing
`"Memory:"` may set the memory total when the remainder mentions `"GB"` and
its first token parses as a float (failures swallowed, last success
wins). -/
def appleScan : List String → String → Option ℚ → String × Option ℚ
  | [], chip, mem => (chip, mem)
  | l :: ls, chip, mem =>
    let line := pyStrip l
    if strContains line "Chip:" then
      appleScan ls (pyStrip (afterMarker line "Chip:")) mem
    else if strContains line "Memory:" then
      let mem_str := pyStrip (afterMarker line "Memory:")
      if strContains mem_str "GB" then
        match pySplitWs mem_str with
        | [] => appleScan ls chip mem
        | t :: _ =>
          match pyFloat t with
          | some v => appleScan ls chip (some v)
          | none => appleScan ls chip mem
      else appleScan ls chip mem
    else appleScan ls chip mem

/-- The nested substring classification of the chip name into an
architecture label and a GPU core count. -/
def appleChipInfo (chip : String) : String × Option Int :=
  if strContains chip "M1" then
    if strContains chip "Pro" then ("Apple M1 Pro GPU", some 16)
    else if strContains chip "Max" then ("Apple M1 Max GPU", some 32)
    else if strContains chip "Ultra" then ("Apple M1 Ultra GPU", some 64)
    else ("Apple M1 GPU", some 8)
  else if strContains chip "M2" then
    if strContains chip "Pro" then ("Apple M2 Pro GPU", some 19)
    else if strContains chip "Max" then ("Apple M2 Max GPU", some 38)
    else if strContains chip "Ultra" then ("Apple M2 Ultra GPU", some 76)
    else ("Apple M2 GPU", some 10)
  else if strContains chip "M3" then
    if strContains chip "Pro" then ("Apple M3 Pro GPU", some 18)
    else if strContains chip "Max" then ("Apple M3 Max GPU", some 40)
    else ("Apple M3 GPU", some 10)
  else if strContains chip "M4" then
    if strContains chip "Pro" then ("Apple M4 Pro GPU", some 20)
    else if strContains chip "Max" then ("Apple M4 Max GPU", some 40)
    else ("Apple M4 GPU", some 10)
  else ("Apple GPU", none)

/-- Values the system tools return on the success path of
`get_apple_silicon_specs`. -/
structure AppleEnv where
  hwReturncodeZero : Bool
  hwStdout : String

/-- The gatherer `get_apple_silicon_specs` on its success path, as a pure
function of the environment. -/
def get_apple_silicon_specs (env : AppleEnv) : GPUSpecs :=
  let st :=
    if env.hwReturncodeZero then
      appleScan (splitLines env.hwStdout) "Apple Silicon" none
    else ("Apple Silicon", none)
  let ci := appleChipInfo st.1
  { vendor := "Apple"
    device_name := st.1
    architecture := ci.1
    compute_units := ci.2
    total_memory_gb := st.2
    additional_info := some
      [("unit_type", PyVal.pstr "GPU Core"),
       ("unified_memory", PyVal.pbool true),
       ("metal_support", PyVal.pbool true),
       ("note", PyVal.pstr "Uses unified memory architecture")] }

/-! ### Platform detection (`detect_platform`) -/

/-- The NVIDIA probe outcome: `true` exactly when `pynvml` imports,
initializes, and reports a positive device count (`none` models any
exception in the probe). -/
def nvmlPositive : Option Nat → Bool
  | some n => decide (0 < n)
  | none => false

/-- Observable results of the probes `detect_platform` runs:
`nvmlDeviceCount` is `none` when importing or initializing the NVIDIA
binding raises; `rocmReturncode` is `none` when the AMD tool is missing,
times out, or raises. -/
structure DetectEnv where
  system : String
  processor : String
  nvmlDeviceCount : Option Nat
  rocmReturncode : Option Int
  torchPresent : Bool
  mpsAvailable : Bool
  cudaAvailable : Bool

/-- The platform detector `detect_platform`, as a pure function of the
probe results. -/
def detect_platform (env : DetectEnv) : String :=
  if env.system == "Darwin" && env.processor == "arm" then "apple_silicon"
  else if nvmlPositive env.nvmlDeviceCount then "nvidia"
  else if env.rocmReturncode == some 0 then "amd"
  else if env.torchPresent then
    if env.mpsAvailable then "apple_silicon"
    else if env.cudaAvailable then "nvidia"
    else "unknown"
  else "unknown"

/-! ### Entry point (`main`) -/

/-- Outcomes of the steps `main` runs inside its `try` block:
`detect` is the result of `detect_platform` (an `error` models an exception
escaping it), and each gatherer result is the record it returns or the
message of the wrapped `RuntimeError` it raises. -/
structure MainEnv where
  detect : Except String String
  nvidia : Except String GPUSpecs
  amd : Except String GPUSpecs
  apple : Except String GPUSpecs
  torchPresent : Bool
  cudaAvailable : Bool
  mpsAttrPresent : Bool
  mpsAvailable : Bool

/-- The line `main` prints from its `except` clause before `sys.exit(1)`. -/
def errorLine (e : String) : String :=
  "Error detecting GPU specifications: " ++ e

/-- The first line `main` prints (its trailing `\n` produces a blank
line). -/
def platformLine (pt : String) : String :=
  "Detected Platform: " ++ pyTitle (pyReplaceChar '_' ' ' pt) ++ "\n"

/-- The informational message of the unsupported-platform branch. -/
def noGpuMsg : String :=
  "No compatible GPU detected or unsupported platform."

/-- The lines of the unsupported-platform branch of `main`. -/
def noGpuLines (env : MainEnv) : List String :=
  [noGpuMsg,
   "Supported platforms: NVIDIA (CUDA), AMD (ROCm), Apple Silicon (Metal)"]
  ++ (if env.torchPresent then
        ["\nPyTorch available: Yes",
         "CUDA available: " ++ (if env.cudaAvailable then "True" else "False")]
        ++ (if env.mpsAttrPresent then
              ["MPS available: " ++
                (if env.mpsAvailable then "True" else "False")]
            else [])
      else
        ["\nPyTorch not available - install PyTorch for better GPU detection"])

/-- The entry point `main`: the exit code of the process (0 for a normal
return, 1 for `sys.exit(1)` from the `except` clause) together with the
lines printed.  An exception at any step aborts the remaining steps; output
printed before it is kept. -/
def mainRun (env : MainEnv) : Nat × List String :=
  match env.detect with
  | Except.error e => (1, [errorLine e])
  | Except.ok pt =>
    let pl := platformLine pt
    if pt = "nvidia" then
      match env.nvidia with
      | Except.error e => (1, [pl, errorLine e])
      | Except.ok s => (0, pl :: print_gpu_specs s)
    else if pt = "amd" then
      match env.amd with
      | Except.error e => (1, [pl, errorLine e])
      | Except.ok s => (0, pl :: print_gpu_specs s)
    else if pt = "apple_silicon" then
      match env.apple with
      | Except.error e => (1, [pl, errorLine e])
      | Except.ok s => (0, pl :: print_gpu_specs s)
    else (0, pl :: noGpuLines env)

/-! ### Theorems for claims C7, C8, C9, C10 -/

/-- C7: the chip-name classification used by the Apple gatherer sends
`"Apple M2 Pro"` to architecture `"Apple M2 Pro GPU"` with 19 cores,
`"Apple M1"` to `"Apple M1 GPU"` with 8 cores, and the unrecognized
`"Apple Z9"` to `"Apple GPU"` with no core count; the gatherer's record
carries exactly this classification of its device name. -/
theorem apple_chip_classification :
    appleChipInfo "Apple M2 Pro" = ("Apple M2 Pro GPU", some 19) ∧
    appleChipInfo "Apple M1" = ("Apple M1 GPU", some 8) ∧
    appleChipInfo "Apple Z9" = ("Apple GPU", none) ∧
    ∀ env : AppleEnv,
      (get_apple_silicon_specs env).architecture =
        (appleChipInfo (get_apple_silicon_specs env).device_name).1 ∧
      (get_apple_silicon_specs env).compute_units =
        (appleChipInfo (get_apple_silicon_specs env).device_name).2 := by
  refine ⟨by decide, by decide, by decide, fun env => ⟨rfl, rfl⟩⟩

/-- C8: any device name containing `"RX 5"` but neither `"RX 7"` nor
`"RX 6"` is labelled `"RDNA"` by the AMD architecture heuristic — the
second occurrence of the `"RX 5"` test in the Polaris branch never decides
the result. -/
theorem amd_rx5_first_match (name : String)
    (h5 : strContains name "RX 5" = true)
    (h7 : strContains name "RX 7" = false)
    (h6 : strContains name "RX 6" = false) :
    amdArchitecture name = "RDNA" := by
  simp [amdArchitecture, h5, h6, h7]

/-- Witness for C8: a concrete RDNA-generation device name. -/
theorem amd_rx5_first_match_witness :
    amdArchitecture "Radeon RX 580" = "RDNA" :=
  amd_rx5_first_match "Radeon RX 580" (by decide) (by decide) (by decide)

/-- C9: `detect_platform` is a strict first-match-wins priority chain:
Apple OS with an ARM processor wins, otherwise a positive NVIDIA device
count, otherwise a zero AMD tool exit code, otherwise the torch MPS flag
before the torch CUDA flag, otherwise `"unknown"`; a failed probe (`none`)
behaves exactly like a negative probe. -/
theorem detect_platform_priority : ∀ env : DetectEnv,
    ((env.system == "Darwin" && env.processor == "arm") = true →
      detect_platform env = "apple_silicon") ∧
    ((env.system == "Darwin" && env.processor == "arm") = false →
      ∀ n, env.nvmlDeviceCount = some n → 0 < n →
        detect_platform env = "nvidia") ∧
    ((env.system == "Darwin" && env.processor == "arm") = false →
      nvmlPositive env.nvmlDeviceCount = false →
      env.rocmReturncode = some 0 → detect_platform env = "amd") ∧
    ((env.system == "Darwin" && env.processor == "arm") = false →
      nvmlPositive env.nvmlDeviceCount = false →
      env.rocmReturncode ≠ some 0 → env.torchPresent = true →
      env.mpsAvailable = true → detect_platform env = "apple_silicon") ∧
    ((env.system == "Darwin" && env.processor == "arm") = false →
      nvmlPositive env.nvmlDeviceCount = false →
      env.rocmReturncode ≠ some 0 → env.torchPresent = true →
      env.mpsAvailable = false → env.cudaAvailable = true →
      detect_platform env = "nvidia") ∧
    ((env.system == "Darwin" && env.processor == "arm") = false →
      nvmlPositive env.nvmlDeviceCount = false →
      env.rocmReturncode ≠ some 0 → env.torchPresent = true →
      env.mpsAvailable = false → env.cudaAvailable = false →
      detect_platform env = "unknown") ∧
    ((env.system == "Darwin" && env.processor == "arm") = false →
      nvmlPositive env.nvmlDeviceCount = false →
      env.rocmReturncode ≠ some 0 → env.torchPresent = false →
      detect_platform env = "unknown") ∧
    (nvmlPositive none = false ∧
      ∀ n, nvmlPositive (some n) = decide (0 < n)) := by
  intro env
  refine ⟨fun hAS => ?_, fun hAS n hn hpos => ?_, fun hAS hN hR => ?_,
    fun hAS hN hR hT hM => ?_, fun hAS hN hR hT hM hC => ?_,
    fun hAS hN hR hT hM hC => ?_, fun hAS hN hR hT => ?_,
    ⟨rfl, fun n => rfl⟩⟩
  · simp [detect_platform, hAS]
  · simp [detect_platform, hAS, nvmlPositive, hn, hpos]
  · simp [detect_platform, hAS, hN, hR]
  · simp [detect_platform, hAS, hN, hR, hT, hM]
  · simp [detect_platform, hAS, hN, hR, hT, hM, hC]
  · simp [detect_platform, hAS, hN, hR, hT, hM, hC]
  · simp [detect_platform, hAS, hN, hR, hT]

/-- Witness for C9: a Linux machine with every probe failing is classified
`"unknown"`, and a machine whose only hit is the AMD tool is classified
`"amd"`. -/
theorem detect_platform_priority_witness :
    detect_platform ⟨"Linux", "x86_64", none, none, false, false, false⟩ =
      "unknown" ∧
    detect_platform ⟨"Linux", "x86_64", some 0, some 0, true, true, true⟩ =
      "amd" :=
  ⟨(detect_platform_priority
      ⟨"Linux", "x86_64", none, none, false, false, false⟩).2.2.2.2.2.2.1
      (by decide) rfl (by decide) rfl,
   (detect_platform_priority
      ⟨"Linux", "x86_64", some 0, some 0, true, true, true⟩).2.2.1
      (by decide) rfl rfl⟩

/-- C10: every record any of the three gatherers returns has a present
`additional_info` mapping with a `"unit_type"` entry, and the formatter's
compute-unit label for such a record is that entry's value, never the
default `"Compute Units"`. -/
theorem gatherers_unit_type : ∀ (ne : NvidiaEnv) (ae : AmdEnv) (pe : AppleEnv),
    (∃ d, (get_nvidia_specs ne).additional_info = some d ∧
      List.lookup "unit_type" d =
        some (PyVal.pstr "Streaming Multiprocessor (SM)")) ∧
    unitTypeLabel (get_nvidia_specs ne) = "Streaming Multiprocessor (SM)" ∧
    unitTypeLabel (get_nvidia_specs ne) ≠ "Compute Units" ∧
    (∃ d, (get_amd_specs ae).additional_info = some d ∧
      List.lookup "unit_type" d = some (PyVal.pstr "Compute Unit (CU)")) ∧
    unitTypeLabel (get_amd_specs ae) = "Compute Unit (CU)" ∧
    unitTypeLabel (get_amd_specs ae) ≠ "Compute Units" ∧
    (∃ d, (get_apple_silicon_specs pe).additional_info = some d ∧
      List.lookup "unit_type" d = some (PyVal.pstr "GPU Core")) ∧
    unitTypeLabel (get_apple_silicon_specs pe) = "GPU Core" ∧
    unitTypeLabel (get_apple_silicon_specs pe) ≠ "Compute Units" := by
  intro ne ae pe
  refine ⟨⟨_, rfl, rfl⟩, rfl, ?_, ⟨_, rfl, rfl⟩, rfl, ?_, ⟨_, rfl, rfl⟩,
    rfl, ?_⟩
  · rw [show unitTypeLabel (get_nvidia_specs ne) =
      "Streaming Multiprocessor (SM)" from rfl]
    decide
  · rw [show unitTypeLabel (get_amd_specs ae) = "Compute Unit (CU)" from rfl]
    decide
  · rw [show unitTypeLabel (get_apple_silicon_specs pe) = "GPU Core" from rfl]
    decide

/-! ### Theorems for claim C6 -/

/-- When the first `"Total"`/`"MB"` line of the scan parses, it decides the
total. -/
theorem amdMemLoop_head_parses :
    ∀ (lines : List String) (l : String),
      (lines.filter fun x => amdMemLineMatch x).head? = some l →
      ∀ v : Int, amdLineTok l = some v →
        amdMemLoop lines = some ((v : ℚ) / 1024) := by
  intro lines
  induction lines with
  | nil => intro l h; simp at h
  | cons x ls ih =>
    intro l h v hv
    by_cases hm : amdMemLineMatch x = true
    · rw [List.filter_cons_of_pos hm] at h
      simp at h
      subst h
      simp [amdMemLoop, hm, hv]
    · rw [List.filter_cons_of_neg hm] at h
      have hr := ih l h v hv
      simp [amdMemLoop, hm, hr]

/-- When every `"Total"`/`"MB"` line fails to parse, the total stays
unset. -/
theorem amdMemLoop_all_fail :
    ∀ lines : List String,
      (∀ l ∈ lines, amdMemLineMatch l = true → amdLineTok l = none) →
      amdMemLoop lines = none := by
  intro lines
  induction lines with
  | nil => intro _; rfl
  | cons x ls ih =>
    intro h
    by_cases hm : amdMemLineMatch x = true
    · have hx := h x (List.mem_cons_self x ls) hm
      have hr := ih fun l hl hml => h l (List.mem_cons_of_mem x hl) hml
      simp [amdMemLoop, hm, hx, hr]
    · have hr := ih fun l hl hml => h l (List.mem_cons_of_mem x hl) hml
      simp [amdMemLoop, hm, hr]

/-- A set total always comes from some matching line that parsed. -/
theorem amdMemLoop_some_source :
    ∀ (lines : List String) (g : ℚ), amdMemLoop lines = some g →
      ∃ l ∈ lines, amdMemLineMatch l = true ∧
        ∃ v : Int, amdLineTok l = some v ∧ g = (v : ℚ) / 1024 := by
  intro lines
  induction lines with
  | nil => intro g h; simp [amdMemLoop] at h
  | cons x ls ih =>
    intro g h
    by_cases hm : amdMemLineMatch x = true
    · rcases hv : amdLineTok x with _ | v
      · rw [show amdMemLoop (x :: ls) = amdMemLoop ls by
          simp [amdMemLoop, hm, hv]] at h
        obtain ⟨l, hl, hml, w, hw, hg⟩ := ih g h
        exact ⟨l, List.mem_cons_of_mem x hl, hml, w, hw, hg⟩
      · rw [show amdMemLoop (x :: ls) = some ((v : ℚ) / 1024) by
          simp [amdMemLoop, hm, hv]] at h
        refine ⟨x, List.mem_cons_self x ls, hm, v, hv, ?_⟩
        exact (Option.some.injEq _ _ ▸ h).symm
    · rw [show amdMemLoop (x :: ls) = amdMemLoop ls by
        simp [amdMemLoop, hm]] at h
      obtain ⟨l, hl, hml, w, hw, hg⟩ := ih g h
      exact ⟨l, List.mem_cons_of_mem x hl, hml, w, hw, hg⟩

/-- C6 (counterexample): the claim says a malformed first `"Total"`/`"MB"`
line leaves the total unset, but the scan falls through to later matching
lines: here the first matching line has a non-integer second-to-last token,
yet the total is set from the second matching line. -/
theorem amd_memory_malformed_counterexample :
    (["Total MB x y", "Total MB 2048 end"].filter
      fun x => amdMemLineMatch x).head? = some "Total MB x y" ∧
    amdLineTok "Total MB x y" = none ∧
    amdMemLoop ["Total MB x y", "Total MB 2048 end"] = some 2 := by
  refine ⟨by decide, by decide, ?_⟩
  have h1 : amdMemLineMatch "Total MB x y" = true := by decide
  have h2 : amdLineTok "Total MB x y" = none := by decide
  have h3 : amdMemLineMatch "Total MB 2048 end" = true := by decide
  have h4 : amdLineTok "Total MB 2048 end" = some 2048 := by decide
  simp [amdMemLoop, h1, h2, h3, h4]
  norm_num

/-- Complete characterization of the scan: its result is the integer token
of the first `"Total"`/`"MB"` line whose token parses (in scan order,
malformed matching lines falling through), divided by 1024 — `none` when no
matching line parses. -/
theorem amdMemLoop_first_parse_wins :
    ∀ lines : List String,
      amdMemLoop lines =
        ((lines.filter fun x => amdMemLineMatch x).filterMap
          amdLineTok).head?.map fun v => (v : ℚ) / 1024 := by
  intro lines
  induction lines with
  | nil => rfl
  | cons x ls ih =>
    by_cases hm : amdMemLineMatch x = true
    · rcases hv : amdLineTok x with _ | v
      · rw [List.filter_cons_of_pos hm]
        simp [amdMemLoop, hm, hv, List.filterMap_cons, ih]
      · rw [List.filter_cons_of_pos hm]
        simp [amdMemLoop, hm, hv, List.filterMap_cons]
    · rw [List.filter_cons_of_neg hm]
      simp [amdMemLoop, hm, ih]

/-- C6 (amended): the AMD gatherer's memory scan sets the total to the
integer second-to-last token of the first `"Total"`/`"MB"` line whose token
parses, divided by 1024 — a malformed matching line always falls through to
the next matching line (first conjunct, a complete functional
characterization); in particular when the first matching line parses it
decides the result, and when no matching line parses the total stays unset
(the scan itself never raises, being a total function); the gatherer stores
exactly the scan's result when the memory query exits 0. -/
theorem amd_memory_parse_spec : ∀ lines : List String,
    (amdMemLoop lines =
      ((lines.filter fun x => amdMemLineMatch x).filterMap
        amdLineTok).head?.map fun v => (v : ℚ) / 1024) ∧
    (∀ l, (lines.filter fun x => amdMemLineMatch x).head? = some l →
      ∀ v : Int, amdLineTok l = some v →
        amdMemLoop lines = some ((v : ℚ) / 1024)) ∧
    ((∀ l ∈ lines, amdMemLineMatch l = true → amdLineTok l = none) →
      amdMemLoop lines = none) ∧
    (∀ g : ℚ, amdMemLoop lines = some g →
      ∃ l ∈ lines, amdMemLineMatch l = true ∧
        ∃ v : Int, amdLineTok l = some v ∧ g = (v : ℚ) / 1024) ∧
    (∀ env : AmdEnv, env.memReturncodeZero = true →
      (get_amd_specs env).total_memory_gb =
        amdMemLoop (splitLines (pyStrip env.memStdout))) := by
  intro lines
  refine ⟨amdMemLoop_first_parse_wins lines, amdMemLoop_head_parses lines,
    amdMemLoop_all_fail lines, amdMemLoop_some_source lines,
    fun env h => ?_⟩
  simp [get_amd_specs, h]

/-- Witness for C6 (amended): a well-formed `rocm-smi` memory line with
8192 MB yields 8 GB. -/
theorem amd_memory_parse_spec_witness :
    amdMemLoop ["Total (MB): 8192 (used)"] = some (((8192 : Int) : ℚ) / 1024) :=
  (amd_memory_parse_spec ["Total (MB): 8192 (used)"]).2.1
    "Total (MB): 8192 (used)" (by decide) 8192 (by decide)

/-! ### Theorems for claim C5 -/

/-- A record whose `compute_units` field is present with value 0, for the
formatter theorems. -/
def specsZeroUnits : GPUSpecs :=
  { vendor := "NVIDIA", device_name := "Test GPU", architecture := "Ampere",
    compute_units := some 0 }

/-- A record whose `compute_units` field is present and nonzero, for the
formatter theorems. -/
def specsSomeUnits : GPUSpecs :=
  { vendor := "NVIDIA", device_name := "Test GPU", architecture := "Ampere",
    compute_units := some 28 }

/-- C5 (counterexample): the claim says an optional field present with
value 0 still gets its line printed, but the formatter tests Python
truthiness: with `compute_units` present and equal to 0 the output consists
of the three mandatory lines only. -/
theorem print_zero_units_counterexample :
    specsZeroUnits.compute_units = some 0 ∧
    print_gpu_specs specsZeroUnits =
      ["Device: Test GPU", "Vendor: NVIDIA", "Architecture: Ampere"] := by
  decide

/-- C5 (amended): the formatter prints the line for each optional field
exactly when that field is present with a truthy value — a nonempty string,
a nonzero integer, a nonzero rational; a field that is absent, or present
with value 0 (or the empty string), produces no line. -/
theorem print_fields_truthy : ∀ s : GPUSpecs,
    (print_gpu_specs s =
      ["Device: " ++ s.device_name, "Vendor: " ++ s.vendor,
       "Architecture: " ++ s.architecture]
      ++ capLines s ++ cuLines s ++ regLines s ++ shmLines s ++ ptShmLines s
      ++ thrLines s ++ blkLines s ++ memLines s ++ addLines s) ∧
    (∀ c, s.compute_capability = some c → c ≠ "" →
      capLines s = ["Compute Capability: " ++ c]) ∧
    (s.compute_capability = none ∨ s.compute_capability = some "" →
      capLines s = []) ∧
    (∀ n : Int, s.compute_units = some n → n ≠ 0 →
      cuLines s = [unitTypeLabel s ++ ": " ++ toString n]) ∧
    (s.compute_units = none ∨ s.compute_units = some 0 → cuLines s = []) ∧
    (∀ n : Int, s.registers_per_unit = some n → n ≠ 0 →
      regLines s = ["Registers per Unit: " ++ fmtComma n]) ∧
    (s.registers_per_unit = none ∨ s.registers_per_unit = some 0 →
      regLines s = []) ∧
    (∀ n : Int, s.shared_memory_per_unit_kb = some n → n ≠ 0 →
      shmLines s =
        ["Shared Memory per Unit: " ++ toString n ++ "KB (architectural max)"]) ∧
    (s.shared_memory_per_unit_kb = none ∨
      s.shared_memory_per_unit_kb = some 0 → shmLines s = []) ∧
    (∀ n : Int, s.max_threads_per_unit = some n → n ≠ 0 →
      thrLines s = ["Max Threads per Unit: " ++ fmtComma n]) ∧
    (s.max_threads_per_unit = none ∨ s.max_threads_per_unit = some 0 →
      thrLines s = []) ∧
    (∀ n : Int, s.max_blocks_per_unit = some n → n ≠ 0 →
      blkLines s = ["Max Blocks per Unit: " ++ toString n]) ∧
    (s.max_blocks_per_unit = none ∨ s.max_blocks_per_unit = some 0 →
      blkLines s = []) ∧
    (∀ q : ℚ, s.total_memory_gb = some q → q ≠ 0 →
      memLines s = ["Total Memory: " ++ fmtRat1 q ++ "GB"]) ∧
    (s.total_memory_gb = none ∨ s.total_memory_gb = some 0 →
      memLines s = []) := by
  intro s
  refine ⟨rfl, fun c h hn => ?_, fun h => ?_, fun n h hn => ?_, fun h => ?_,
    fun n h hn => ?_, fun h => ?_, fun n h hn => ?_, fun h => ?_,
    fun n h hn => ?_, fun h => ?_, fun n h hn => ?_, fun h => ?_,
    fun q h hn => ?_, fun h => ?_⟩
  · simp [capLines, h, hn]
  · rcases h with h | h <;> simp [capLines, h]
  · simp [cuLines, h, hn]
  · rcases h with h | h <;> simp [cuLines, h]
  · simp [regLines, h, hn]
  · rcases h with h | h <;> simp [regLines, h]
  · simp [shmLines, h, hn]
  · rcases h with h | h <;> simp [shmLines, h]
  · simp [thrLines, h, hn]
  · rcases h with h | h <;> simp [thrLines, h]
  · simp [blkLines, h, hn]
  · rcases h with h | h <;> simp [blkLines, h]
  · simp [memLines, h, hn]
  · rcases h with h | h <;> simp [memLines, h]

/-- Witness for C5 (amended): a present-but-zero `compute_units` yields no
line, a present nonzero one yields the labelled line. -/
theorem print_fields_truthy_witness :
    cuLines specsZeroUnits = [] ∧
    cuLines specsSomeUnits =
      [unitTypeLabel specsSomeUnits ++ ": " ++ toString (28 : Int)] :=
  ⟨(print_fields_truthy specsZeroUnits).2.2.2.2.1 (Or.inr rfl),
   (print_fields_truthy specsSomeUnits).2.2.2.1 28 rfl (by decide)⟩

/-! ### Theorems for claim C4 -/

/-- C4: when detection yields `"unknown"` the program prints the
no-compatible-GPU message and exits 0; the exit code is 1 exactly when the
detect/gather sequence raises an unhandled error, and in every such case
the error's textual description is printed. -/
theorem main_exit_code_spec : ∀ env : MainEnv,
    (env.detect = Except.ok "unknown" →
      (mainRun env).1 = 0 ∧ noGpuMsg ∈ (mainRun env).2) ∧
    ((mainRun env).1 = 1 ↔
      (∃ e, env.detect = Except.error e) ∨
      (env.detect = Except.ok "nvidia" ∧ ∃ e, env.nvidia = Except.error e) ∨
      (env.detect = Except.ok "amd" ∧ ∃ e, env.amd = Except.error e) ∨
      (env.detect = Except.ok "apple_silicon" ∧
        ∃ e, env.apple = Except.error e)) ∧
    (∀ e, env.detect = Except.error e → errorLine e ∈ (mainRun env).2) ∧
    (∀ e, env.detect = Except.ok "nvidia" → env.nvidia = Except.error e →
      errorLine e ∈ (mainRun env).2) ∧
    (∀ e, env.detect = Except.ok "amd" → env.amd = Except.error e →
      errorLine e ∈ (mainRun env).2) ∧
    (∀ e, env.detect = Except.ok "apple_silicon" →
      env.apple = Except.error e → errorLine e ∈ (mainRun env).2) := by
  intro env
  obtain ⟨det, nv, am, ap, tp, ca, mp, mv⟩ := env
  cases det with
  | error e => simp [mainRun]
  | ok pt =>
    by_cases h1 : pt = "nvidia"
    · subst h1
      cases nv with
      | error e => simp [mainRun]
      | ok s => simp [mainRun]
    · by_cases h2 : pt = "amd"
      · subst h2
        cases am with
        | error e => simp [mainRun, h1]
        | ok s => simp [mainRun, h1]
      · by_cases h3 : pt = "apple_silicon"
        · subst h3
          cases ap with
          | error e => simp [mainRun, h1, h2]
          | ok s => simp [mainRun, h1, h2]
        · constructor
          · intro h
            have hpt : pt = "unknown" := by
              simpa using h
            subst hpt
            refine ⟨by simp [mainRun, h1, h2, h3], ?_⟩
            simp [mainRun, h1, h2, h3, noGpuLines]
          · simp [mainRun, h1, h2, h3]

/-- An environment whose detection yields `"unknown"`, for the C4
witness. -/
def mainEnvUnknown : MainEnv :=
  { detect := Except.ok "unknown"
    nvidia := Except.error "unused"
    amd := Except.error "unused"
    apple := Except.error "unused"
    torchPresent := false
    cudaAvailable := false
    mpsAttrPresent := false
    mpsAvailable := false }

/-- Witness for C4: the unknown-platform run exits 0 and prints the
informational message. -/
theorem main_exit_code_spec_witness :
    (mainRun mainEnvUnknown).1 = 0 ∧ noGpuMsg ∈ (mainRun mainEnvUnknown).2 :=
  (main_exit_code_spec mainEnvUnknown).1 rfl
